import Mathlib

/-!
Verification of the `cminusminus` type-analysis pass (`src/type_analysis.cpp`).

The AST node classes, the type representation (`types.hpp`) and the
`TypeAnalysis` context (`type_analysis.hpp`) are external headers of the
repository; the per-node `typeAnalysis` methods in `type_analysis.cpp` are
embedded rule-for-rule below.  Basic types are interned and the error type is
a canonical singleton, so the C++ pointer comparison `==` on `DataType *`
coincides with equality of the `DataType` values below; a `FnType` is a fresh
allocation, modelled by the `alloc` identity field of the `fn` constructor
(two constructions with different `alloc` are distinct, matching distinct
pointers).
-/

namespace CMM

/-- The five basic type kinds of the language (spec section 3). -/
inductive BasicKind where
  | INT
  | SHORT
  | BOOL
  | STRING
  | VOID
deriving DecidableEq

/-- A `DataType` value.  `basic` values are interned and `error` is a
canonical singleton, so equality of these values models C++ pointer equality;
`fn` carries the allocation identity `alloc` of the `new FnType(...)` so that
two distinct allocations compare unequal even when structurally equal,
exactly as pointer comparison does. -/
inductive DataType where
  | basic (k : BasicKind)
  | fn (alloc : Nat) (formals : List DataType) (ret : DataType)
  | error

mutual

/-- Decidable equality on `DataType` (componentwise; on `fn` it compares the
allocation identities as well, so propositional equality of these values
models C++ pointer equality under the interning conventions). -/
def DataType.decEq : (a b : DataType) → Decidable (a = b)
  | .basic k1, .basic k2 =>
      if h : k1 = k2 then .isTrue (by rw [h]) else .isFalse (by simp [h])
  | .basic _, .fn _ _ _ => .isFalse (by simp)
  | .basic _, .error => .isFalse (by simp)
  | .fn _ _ _, .basic _ => .isFalse (by simp)
  | .fn a1 f1 r1, .fn a2 f2 r2 =>
      if ha : a1 = a2 then
        match DataType.decEqList f1 f2, DataType.decEq r1 r2 with
        | .isTrue hf, .isTrue hr => .isTrue (by rw [ha, hf, hr])
        | .isFalse hf, _ => .isFalse (by simp [hf])
        | _, .isFalse hr => .isFalse (by simp [hr])
      else .isFalse (by simp [ha])
  | .fn _ _ _, .error => .isFalse (by simp)
  | .error, .basic _ => .isFalse (by simp)
  | .error, .fn _ _ _ => .isFalse (by simp)
  | .error, .error => .isTrue rfl

/-- Decidable equality on lists of `DataType`. -/
def DataType.decEqList : (as1 bs1 : List DataType) → Decidable (as1 = bs1)
  | [], [] => .isTrue rfl
  | [], _ :: _ => .isFalse (by simp)
  | _ :: _, [] => .isFalse (by simp)
  | a :: as1, b :: bs1 =>
      match DataType.decEq a b, DataType.decEqList as1 bs1 with
      | .isTrue h1, .isTrue h2 => .isTrue (by rw [h1, h2])
      | .isFalse h1, _ => .isFalse (by simp [h1])
      | _, .isFalse h2 => .isFalse (by simp [h2])

end

instance : DecidableEq DataType := DataType.decEq

/-- Modelled from the spec: classification query `isInt` (true exactly on the
interned INT basic type). -/
def DataType.isInt : DataType → Bool
  | .basic .INT => true
  | _ => false

/-- Modelled from the spec: classification query `isBool`. -/
def DataType.isBool : DataType → Bool
  | .basic .BOOL => true
  | _ => false

/-- Modelled from the spec: classification query `isString`. -/
def DataType.isString : DataType → Bool
  | .basic .STRING => true
  | _ => false

/-- Modelled from the spec: classification query `isVoid`.  On a Function
type it reports whether the declared return type is VOID: the write-statement
rule of the spec distinguishes void-returning functions from the rest through
this very query on the function-typed source. -/
def DataType.isVoid : DataType → Bool
  | .basic .VOID => true
  | .fn _ _ r => r.isVoid
  | _ => false

/-- Modelled from the spec: capability query `asFn` as a boolean test (the
source only ever uses the returned pointer as a truth value or to reach the
formal/return types, which the `fn` constructor carries directly). -/
def DataType.isFn : DataType → Bool
  | .fn _ _ _ => true
  | _ => false

/-- Modelled from the spec: `asError` as a boolean test (the source uses the
returned pointer only as a truth value). -/
def DataType.asError : DataType → Bool
  | .error => true
  | _ => false

/-- Modelled from the spec: `validVarType` holds of the types a variable may
have, i.e. the non-void basic types (function and error types are not valid
variable types). -/
def DataType.validVarType : DataType → Bool
  | .basic k => ¬ (k = BasicKind.VOID)
  | _ => false

/-- The error kinds emitted through the diagnostic reporter (spec section 7),
named after the reporter operations `errMathOpd`, `errEqOpr`, `errRelOpd`,
`errAssignOpr`, `errReadFn`, `errWriteFn`, `errWriteVoid`, `errIfCond` that
the source calls. -/
inductive ErrKind where
  | MathOpd
  | EqOpr
  | RelOpd
  | AssignOpr
  | ReadFn
  | WriteFn
  | WriteVoid
  | IfCond
deriving DecidableEq

/-- A classified, position-tagged diagnostic. -/
structure Diag where
  pos : Nat
  kind : ErrKind
deriving DecidableEq

/-- The `TypeAnalysis` context threaded through the traversal: the node-to-type
annotation store (most recent binding first, so a re-recording shadows the
older one, matching map assignment, while keeping every recording event
observable), the current-function slot, the diagnostic list with its
monotonic `hasError` flag, the standard-output stream (the source prints
several messages with `std::cout` instead of calling the reporter), and a
`fault` flag modelling the fatal internal-invariant violation of reading an
unbound node type or a missing current function (states with `fault = true`
correspond to aborted runs). -/
structure TA where
  store : List (Nat × DataType) := []
  currentFn : Option DataType := none
  diags : List Diag := []
  hasError : Bool := false
  out : List String := []
  fault : Bool := false
deriving DecidableEq

/-- The fresh context a run starts from. -/
def initTA : TA := {}

/-- `nodeType(node, type)`: bind a node's type (most recent binding wins). -/
def TA.record (ta : TA) (n : Nat) (t : DataType) : TA :=
  { ta with store := (n, t) :: ta.store }

/-- `nodeType(node)`: look up the most recent binding for a node, if any. -/
def TA.typeOf (ta : TA) (n : Nat) : Option DataType :=
  (ta.store.find? (fun p => p.1 = n)).map (fun p => p.2)

/-- Append a classified diagnostic at a position and set the monotonic
`hasError` flag (spec section 4.2). -/
def TA.report (ta : TA) (p : Nat) (k : ErrKind) : TA :=
  { ta with diags := ta.diags ++ [⟨p, k⟩], hasError := true }

/-- A `std::cout` emission of the source (observable only on stdout, never on
the diagnostic list). -/
def TA.echo (ta : TA) (s : String) : TA :=
  { ta with out := ta.out ++ [s] }

/-- Mark the run as aborted by an internal-invariant violation. -/
def TA.setFault (ta : TA) : TA :=
  { ta with fault := true }

/-- `setCurrentFnType`: install the active function signature. -/
def TA.setCurrentFnType (ta : TA) (t : DataType) : TA :=
  { ta with currentFn := some t }

/-- Reporter operation for `MathOperandMismatch`. -/
def TA.errMathOpd (ta : TA) (p : Nat) : TA := ta.report p .MathOpd

/-- Reporter operation for `EqualityOperandMismatch`. -/
def TA.errEqOpr (ta : TA) (p : Nat) : TA := ta.report p .EqOpr

/-- Reporter operation for `RelationalOperandMismatch`. -/
def TA.errRelOpd (ta : TA) (p : Nat) : TA := ta.report p .RelOpd

/-- Reporter operation for `AssignmentMismatch`. -/
def TA.errAssignOpr (ta : TA) (p : Nat) : TA := ta.report p .AssignOpr

/-- Reporter operation for `ReadOfFunction`. -/
def TA.errReadFn (ta : TA) (p : Nat) : TA := ta.report p .ReadFn

/-- Reporter operation for `WriteOfFunction`. -/
def TA.errWriteFn (ta : TA) (p : Nat) : TA := ta.report p .WriteFn

/-- Reporter operation for `WriteOfVoid`. -/
def TA.errWriteVoid (ta : TA) (p : Nat) : TA := ta.report p .WriteVoid

/-- Reporter operation for `InvalidCondition`. -/
def TA.errIfCond (ta : TA) (p : Nat) : TA := ta.report p .IfCond

/-- The four arithmetic operator node classes (`PlusNode`, `MinusNode`,
`TimesNode`, `DivideNode`); their `typeAnalysis` bodies in the source are
identical, so they share one embedded rule. -/
inductive ArithOp where
  | plus
  | minus
  | times
  | divide
deriving DecidableEq

/-- The logical operator node classes (`AndNode`, `OrNode`); identical
`typeAnalysis` bodies. -/
inductive LogicalOp where
  | andOp
  | orOp
deriving DecidableEq

/-- The equality operator node classes (`EqualsNode`, `NotEqualsNode`);
identical `typeAnalysis` bodies. -/
inductive EqOp where
  | equals
  | notEquals
deriving DecidableEq

/-- The relational operator node classes (`LessNode`, `LessEqNode`,
`GreaterNode`, `GreaterEqNode`); identical `typeAnalysis` bodies. -/
inductive RelOp where
  | less
  | lessEq
  | greater
  | greaterEq
deriving DecidableEq

/-- Expression nodes.  Every node carries its identity `nid` (the C++ node
address, used as the annotation-store key) and its source position `pos`.
An `ident` node carries the declared type of its resolved symbol (attached by
name analysis); two occurrences of the same symbol carry the same `DataType`
value, two distinct function symbols carry `fn` types with distinct `alloc`. -/
inductive Exp where
  | intLit (nid pos : Nat)
  | shortLit (nid pos : Nat)
  | strLit (nid pos : Nat)
  | trueLit (nid pos : Nat)
  | falseLit (nid pos : Nat)
  | ident (nid pos : Nat) (symTy : DataType)
  | arith (op : ArithOp) (nid pos : Nat) (e1 e2 : Exp)
  | logical (op : LogicalOp) (nid pos : Nat) (e1 e2 : Exp)
  | eqExp (op : EqOp) (nid pos : Nat) (e1 e2 : Exp)
  | relExp (op : RelOp) (nid pos : Nat) (e1 e2 : Exp)
  | neg (nid pos : Nat) (e : Exp)
  | notExp (nid pos : Nat) (e : Exp)
  | refExp (nid pos : Nat) (e : Exp)
  | derefExp (nid pos : Nat) (e : Exp)
  | assign (nid pos : Nat) (dst src : Exp)
  | call (nid pos : Nat) (callee : Exp) (args : List Exp)

/-- The node identity of an expression. -/
def Exp.nid : Exp → Nat
  | .intLit n _ => n
  | .shortLit n _ => n
  | .strLit n _ => n
  | .trueLit n _ => n
  | .falseLit n _ => n
  | .ident n _ _ => n
  | .arith _ n _ _ _ => n
  | .logical _ n _ _ _ => n
  | .eqExp _ n _ _ _ => n
  | .relExp _ n _ _ _ => n
  | .neg n _ _ => n
  | .notExp n _ _ => n
  | .refExp n _ _ => n
  | .derefExp n _ _ => n
  | .assign n _ _ _ => n
  | .call n _ _ _ => n

/-- The source position of an expression (`pos()` in the source). -/
def Exp.pos : Exp → Nat
  | .intLit _ p => p
  | .shortLit _ p => p
  | .strLit _ p => p
  | .trueLit _ p => p
  | .falseLit _ p => p
  | .ident _ p _ => p
  | .arith _ _ p _ _ => p
  | .logical _ _ p _ _ => p
  | .eqExp _ _ p _ _ => p
  | .relExp _ _ p _ _ => p
  | .neg _ p _ => p
  | .notExp _ p _ => p
  | .refExp _ p _ => p
  | .derefExp _ p _ => p
  | .assign _ p _ _ => p
  | .call _ p _ _ => p

/-- Statement and declaration nodes.  A `fnDecl` carries the node identities
and declared types of its formal declarations, the declared return type, the
allocation identity of the `new FnType(...)` it builds, the node identity of
its name (`myID`), and its body. -/
inductive Stmt where
  | assignStmt (nid : Nat) (e : Exp)
  | postDecStmt (nid : Nat) (lval : Exp)
  | postIncStmt (nid : Nat) (lval : Exp)
  | readStmt (nid : Nat) (dst : Exp)
  | writeStmt (nid : Nat) (src : Exp)
  | ifStmt (nid : Nat) (cond : Exp) (body : List Stmt)
  | ifElseStmt (nid : Nat) (cond : Exp) (tBody fBody : List Stmt)
  | whileStmt (nid : Nat) (cond : Exp) (body : List Stmt)
  | returnExpStmt (nid : Nat) (e : Exp)
  | returnVoidStmt (nid : Nat)
  | callStmt (nid : Nat) (c : Exp)
  | varDecl (nid : Nat)
  | fnDecl (nid : Nat) (formals : List (Nat × DataType)) (retTy : DataType)
      (fnAlloc : Nat) (idNid : Nat) (body : List Stmt)

/-- A program: the globals list and the `ProgramNode`'s own node identity. -/
structure Program where
  nid : Nat
  globals : List Stmt

/-- The comparison loop of `CallExpNode::typeAnalysis` (source lines
464-474), run only when the argument count equals the formal count: for each
position it prints the index, prints a message on a pointer-unequal pair, and
prints a newline; the `correctArgs` flag it maintains has no observable
effect because its success branch (source lines 475-479) is entirely
commented out. -/
def compareArgs : Nat → List DataType → List DataType → TA → TA
  | _, [], _, ta => ta
  | _, _ :: _, [], ta => ta
  | i, f :: fs, c :: cs, ta =>
      let ta1 := ta.echo (toString i ++ ". ")
      let ta2 := if f = c then ta1 else ta1.echo "mismatched call argument types"
      compareArgs (i + 1) fs cs (ta2.echo "\n")

/-- `FormalDeclNode` has no `typeAnalysis` override in the source, so each
formal is analyzed by the inherited `VarDeclNode::typeAnalysis`, which
records VOID for the declaration node. -/
def analyzeFormals : List (Nat × DataType) → TA → TA
  | [], ta => ta
  | f :: fs, ta => analyzeFormals fs (ta.record f.1 (.basic .VOID))

mutual

/-- The per-expression-node `typeAnalysis` methods of `type_analysis.cpp`,
embedded case by case.  Reading an unbound node type (a crash in the real
program) sets `fault`. -/
def analyzeExp : Exp → TA → TA
  | .intLit n _, ta => ta.record n (.basic .INT)
  | .shortLit n _, ta => ta.record n (.basic .SHORT)
  | .strLit n _, ta => ta.record n (.basic .STRING)
  | .trueLit n _, ta => ta.record n (.basic .BOOL)
  | .falseLit n _, ta => ta.record n (.basic .BOOL)
  | .ident n _ symTy, ta => ta.record n symTy
  | .arith _ n _ e1 e2, ta =>
      let ta2 := analyzeExp e2 (analyzeExp e1 ta)
      match ta2.typeOf e1.nid, ta2.typeOf e2.nid with
      | some t1, some t2 =>
          if t1 ≠ t2 ∨ t1.isInt = false then (ta2.errMathOpd e2.pos).record n .error
          else ta2.record n t1
      | _, _ => ta2.setFault
  | .logical _ n _ e1 e2, ta =>
      let ta2 := analyzeExp e2 (analyzeExp e1 ta)
      match ta2.typeOf e1.nid, ta2.typeOf e2.nid with
      | some t1, some t2 =>
          if t1 ≠ t2 ∨ t1.isBool = false then (ta2.errMathOpd e2.pos).record n .error
          else ta2.record n (.basic .BOOL)
      | _, _ => ta2.setFault
  | .eqExp _ n _ e1 e2, ta =>
      let ta2 := analyzeExp e2 (analyzeExp e1 ta)
      match ta2.typeOf e1.nid, ta2.typeOf e2.nid with
      | some t1, some t2 =>
          if t1 ≠ t2 then (ta2.errEqOpr e2.pos).record n .error
          else ta2.record n (.basic .BOOL)
      | _, _ => ta2.setFault
  | .relExp _ n _ e1 e2, ta =>
      let ta2 := analyzeExp e2 (analyzeExp e1 ta)
      match ta2.typeOf e1.nid, ta2.typeOf e2.nid with
      | some t1, some t2 =>
          if t1 ≠ t2 ∨ t1.isString = true ∨ t1.isVoid = true then
            (ta2.errRelOpd e2.pos).record n .error
          else ta2.record n (.basic .BOOL)
      | _, _ => ta2.setFault
  | .neg _ _ e, ta => analyzeExp e ta
  | .notExp _ _ e, ta => analyzeExp e ta
  | .refExp _ _ e, ta => analyzeExp e ta
  | .derefExp _ _ e, ta => analyzeExp e ta
  | .assign n p dst src, ta =>
      let ta2 := analyzeExp src (analyzeExp dst ta)
      match ta2.typeOf dst.nid, ta2.typeOf src.nid with
      | some tgtType, some srcType =>
          if tgtType = srcType then ta2.record n tgtType
          else (ta2.errAssignOpr p).record n .error
      | _, _ => ta2.setFault
  | .call n _ callee args, ta =>
      let ta1 := analyzeExp callee ta
      match ta1.typeOf callee.nid with
      | some t =>
          match t with
          | .fn _ formals _ =>
              let res := analyzeArgs args ta1
              let ta2 := res.1
              let callTypes := res.2
              let ta3 :=
                if formals.length = args.length then
                  compareArgs 0 formals callTypes ta2
                else
                  ta2.echo "call does not have correct number of arguments\n"
              ta3.record n .error
          | _ => (ta1.echo "you did not call a function\n").record n .error
      | none => ta1.setFault

/-- The argument loop of `CallExpNode::typeAnalysis` (source lines 449-454):
analyze each argument in order, reading its recorded type into `callTypes`. -/
def analyzeArgs : List Exp → TA → TA × List DataType
  | [], ta => (ta, [])
  | e :: es, ta =>
      let ta1 := analyzeExp e ta
      match ta1.typeOf e.nid with
      | some t =>
          let res := analyzeArgs es ta1
          (res.1, t :: res.2)
      | none => (ta1.setFault, [])

/-- The per-statement-node `typeAnalysis` methods of `type_analysis.cpp`,
embedded case by case. -/
def analyzeStmt : Stmt → TA → TA
  | .assignStmt n e, ta =>
      let ta1 := analyzeExp e ta
      match ta1.typeOf e.nid with
      | some subType =>
          if subType.asError then ta1.record n subType
          else ta1.record n (.basic .VOID)
      | none => ta1.setFault
  | .postDecStmt _ lval, ta => analyzeExp lval ta
  | .postIncStmt _ lval, ta => analyzeExp lval ta
  | .readStmt _ dst, ta =>
      let ta1 := analyzeExp dst ta
      match ta1.typeOf dst.nid with
      | some subType => if subType.isFn then ta1.errReadFn dst.pos else ta1
      | none => ta1.setFault
  | .writeStmt _ src, ta =>
      let ta1 := analyzeExp src ta
      match ta1.typeOf src.nid with
      | some subType =>
          if subType.isFn then
            if subType.isVoid then ta1.errWriteVoid src.pos
            else ta1.errWriteFn src.pos
          else ta1
      | none => ta1.setFault
  | .ifStmt n cond body, ta =>
      let ta2 := analyzeStmts body (analyzeExp cond ta)
      match ta2.typeOf cond.nid with
      | some condition =>
          let ta3 :=
            if condition.isBool = false then ta2.errIfCond cond.pos
            else ta2.record n (.basic .VOID)
          ta3.record n .error
      | none => ta2.setFault
  | .ifElseStmt n cond tBody fBody, ta =>
      let ta2 := analyzeStmts fBody (analyzeStmts tBody (analyzeExp cond ta))
      match ta2.typeOf cond.nid with
      | some condition =>
          let ta3 :=
            if condition.isBool = false then ta2.errIfCond cond.pos
            else ta2.record n (.basic .VOID)
          ta3.record n .error
      | none => ta2.setFault
  | .whileStmt n cond body, ta =>
      let ta2 := analyzeStmts body (analyzeExp cond ta)
      match ta2.typeOf cond.nid with
      | some condition =>
          let ta3 :=
            if condition.isBool = false then ta2.errIfCond cond.pos
            else ta2.record n (.basic .VOID)
          ta3.record n .error
      | none => ta2.setFault
  | .returnExpStmt n e, ta =>
      let ta1 := analyzeExp e ta
      match ta1.typeOf e.nid, ta1.currentFn with
      | some subType, some (.fn _ _ ret) =>
          if ret.validVarType then ta1.record n subType
          else ((ta1.echo "void returning value\n").record n .error)
      | some _, some _ => ta1.setFault
      | _, _ => ta1.setFault
  | .returnVoidStmt n, ta =>
      match ta.currentFn with
      | some (.fn _ _ ret) =>
          if ret.validVarType then
            (ta.echo "throw a missing return value error\n").record n .error
          else ta.record n (.basic .VOID)
      | _ => ta.setFault
  | .callStmt n c, ta => (analyzeExp c ta).record n .error
  | .varDecl n, ta => ta.record n (.basic .VOID)
  | .fnDecl _ formals retTy fnAlloc idNid body, ta =>
      let ta1 := analyzeFormals formals ta
      let fnTy := DataType.fn fnAlloc (formals.map (fun f => f.2)) retTy
      let ta3 := analyzeStmts body (ta1.setCurrentFnType fnTy)
      ta3.record idNid fnTy

/-- A statement list analyzed in order (the body loops of the source). -/
def analyzeStmts : List Stmt → TA → TA
  | [], ta => ta
  | s :: ss, ta => analyzeStmts ss (analyzeStmt s ta)

end

/-- `ProgramNode::typeAnalysis`: analyze every global, then record VOID for
the program node itself. -/
def analyzeProgram (p : Program) (ta : TA) : TA :=
  (analyzeStmts p.globals ta).record p.nid (.basic .VOID)

/-- `TypeAnalysis::build`: run the analysis on a fresh context; return the
populated context on success and null (`none`) when `hasError` is set. -/
def build (p : Program) : Option TA :=
  let ta := analyzeProgram p initTA
  if ta.hasError then none else some ta

mutual

/-- Structural equality of types as the SPEC defines it (section 4.1), kept
separate from the value equality that models the source's pointer
comparison: same variant; for `basic` the same kind; for `fn` the same arity
with pairwise structurally-equal formals and structurally-equal return type
(allocation identity ignored); `error` compares unequal to everything,
itself included. -/
def specStructEq : DataType → DataType → Bool
  | .basic k1, .basic k2 => k1 == k2
  | .fn _ f1 r1, .fn _ f2 r2 => specStructEqList f1 f2 && specStructEq r1 r2
  | _, _ => false

/-- Pairwise structural equality of formal lists, as the spec defines it
(equal arity, formals equal in order). -/
def specStructEqList : List DataType → List DataType → Bool
  | [], [] => true
  | a :: as1, b :: bs1 => specStructEq a b && specStructEqList as1 bs1
  | _, _ => false

end

/-- The only type classified as INT is the interned INT basic type. -/
theorem isInt_eq_basic {t : DataType} (h : t.isInt = true) :
    t = DataType.basic BasicKind.INT := by
  cases t with
  | basic k => cases k <;> simp_all [DataType.isInt]
  | fn a f r => simp_all [DataType.isInt]
  | error => simp_all [DataType.isInt]

/-- On INT operands, the spec's structural equality and the source's pointer
equality agree: being structurally equal and INT is the same as being the
identical interned INT instance. -/
theorem specStructEq_isInt_iff (t1 t2 : DataType) :
    (specStructEq t1 t2 = true ∧ t1.isInt = true) ↔ (t1 = t2 ∧ t1.isInt = true) := by
  constructor
  · rintro ⟨hs, hi⟩
    have h1 := isInt_eq_basic hi
    subst h1
    cases t2 with
    | basic k2 =>
        simp only [specStructEq, beq_iff_eq] at hs
        subst hs
        exact ⟨rfl, hi⟩
    | fn a f r => simp [specStructEq] at hs
    | error => simp [specStructEq] at hs
  · rintro ⟨he, hi⟩
    subst he
    have h1 := isInt_eq_basic hi
    subst h1
    exact ⟨by simp [specStructEq], hi⟩

/-- Recording binds the node to the given type. -/
theorem typeOf_record_self (ta : TA) (n : Nat) (t : DataType) :
    (ta.record n t).typeOf n = some t := by
  simp [TA.typeOf, TA.record, List.find?]

/-- Recording leaves the diagnostic list unchanged. -/
theorem diags_record (ta : TA) (n : Nat) (t : DataType) :
    (ta.record n t).diags = ta.diags := rfl

/-- Reporting appends exactly one diagnostic. -/
theorem diags_report (ta : TA) (p : Nat) (k : ErrKind) :
    (ta.report p k).diags = ta.diags ++ [⟨p, k⟩] := rfl

/-- The `hasError` flag is set exactly when the diagnostic list is nonempty
(the flag is monotonic, set by every reporter call and only by them). -/
def DiagFlagInv (ta : TA) : Prop := ta.hasError = true ↔ ta.diags ≠ []

/-- A fresh context satisfies the flag invariant. -/
theorem diagFlagInv_init : DiagFlagInv initTA := by simp [DiagFlagInv, initTA]

/-- Every reporter call establishes the flag invariant outright. -/
theorem DiagFlagInv.report (ta : TA) (p : Nat) (k : ErrKind) :
    DiagFlagInv (ta.report p k) := by
  simp [DiagFlagInv, TA.report]

/-- The call-argument comparison loop only prints, so it preserves the flag
invariant. -/
theorem inv_compareArgs : ∀ (i : Nat) (fs cs : List DataType) (ta : TA),
    DiagFlagInv ta → DiagFlagInv (compareArgs i fs cs ta)
  | _, [], _, _, h => h
  | _, _ :: _, [], _, h => h
  | _, _ :: fs, _ :: cs, _, h => by
      simp only [compareArgs]
      split
      · exact inv_compareArgs _ fs cs _ h
      · exact inv_compareArgs _ fs cs _ h

/-- Analyzing formals only records, so it preserves the flag invariant. -/
theorem inv_analyzeFormals : ∀ (fs : List (Nat × DataType)) (ta : TA),
    DiagFlagInv ta → DiagFlagInv (analyzeFormals fs ta)
  | [], _, h => h
  | f :: fs, ta, h => inv_analyzeFormals fs (ta.record f.1 (DataType.basic .VOID)) h

mutual

/-- Expression analysis preserves the flag invariant. -/
theorem inv_analyzeExp : ∀ (e : Exp) (ta : TA), DiagFlagInv ta → DiagFlagInv (analyzeExp e ta)
  | .intLit _ _, _, h => h
  | .shortLit _ _, _, h => h
  | .strLit _ _, _, h => h
  | .trueLit _ _, _, h => h
  | .falseLit _ _, _, h => h
  | .ident _ _ _, _, h => h
  | .arith _ _ _ e1 e2, ta, h => by
      have h2 := inv_analyzeExp e2 (analyzeExp e1 ta) (inv_analyzeExp e1 ta h)
      simp only [analyzeExp]
      split
      · split
        · exact DiagFlagInv.report _ _ _
        · exact h2
      · exact h2
  | .logical _ _ _ e1 e2, ta, h => by
      have h2 := inv_analyzeExp e2 (analyzeExp e1 ta) (inv_analyzeExp e1 ta h)
      simp only [analyzeExp]
      split
      · split
        · exact DiagFlagInv.report _ _ _
        · exact h2
      · exact h2
  | .eqExp _ _ _ e1 e2, ta, h => by
      have h2 := inv_analyzeExp e2 (analyzeExp e1 ta) (inv_analyzeExp e1 ta h)
      simp only [analyzeExp]
      split
      · split
        · exact DiagFlagInv.report _ _ _
        · exact h2
      · exact h2
  | .relExp _ _ _ e1 e2, ta, h => by
      have h2 := inv_analyzeExp e2 (analyzeExp e1 ta) (inv_analyzeExp e1 ta h)
      simp only [analyzeExp]
      split
      · split
        · exact DiagFlagInv.report _ _ _
        · exact h2
      · exact h2
  | .neg _ _ e, ta, h => inv_analyzeExp e ta h
  | .notExp _ _ e, ta, h => inv_analyzeExp e ta h
  | .refExp _ _ e, ta, h => inv_analyzeExp e ta h
  | .derefExp _ _ e, ta, h => inv_analyzeExp e ta h
  | .assign _ _ dst src, ta, h => by
      have h2 := inv_analyzeExp src (analyzeExp dst ta) (inv_analyzeExp dst ta h)
      simp only [analyzeExp]
      split
      · split
        · exact h2
        · exact DiagFlagInv.report _ _ _
      · exact h2
  | .call _ _ callee args, ta, h => by
      have h1 := inv_analyzeExp callee ta h
      simp only [analyzeExp]
      split
      · split
        · split
          · exact inv_compareArgs _ _ _ _ (inv_analyzeArgs args _ h1)
          · exact inv_analyzeArgs args _ h1
        · exact h1
      · exact h1

/-- Argument-list analysis preserves the flag invariant. -/
theorem inv_analyzeArgs : ∀ (es : List Exp) (ta : TA),
    DiagFlagInv ta → DiagFlagInv (analyzeArgs es ta).1
  | [], _, h => h
  | e :: es, ta, h => by
      have h1 := inv_analyzeExp e ta h
      simp only [analyzeArgs]
      split
      · exact inv_analyzeArgs es _ h1
      · exact h1

/-- Statement analysis preserves the flag invariant. -/
theorem inv_analyzeStmt : ∀ (s : Stmt) (ta : TA), DiagFlagInv ta → DiagFlagInv (analyzeStmt s ta)
  | .assignStmt _ e, ta, h => by
      have h1 := inv_analyzeExp e ta h
      simp only [analyzeStmt]
      split
      · split
        · exact h1
        · exact h1
      · exact h1
  | .postDecStmt _ l, ta, h => inv_analyzeExp l ta h
  | .postIncStmt _ l, ta, h => inv_analyzeExp l ta h
  | .readStmt _ dst, ta, h => by
      have h1 := inv_analyzeExp dst ta h
      simp only [analyzeStmt]
      split
      · split
        · exact DiagFlagInv.report _ _ _
        · exact h1
      · exact h1
  | .writeStmt _ src, ta, h => by
      have h1 := inv_analyzeExp src ta h
      simp only [analyzeStmt]
      split
      · split
        · split
          · exact DiagFlagInv.report _ _ _
          · exact DiagFlagInv.report _ _ _
        · exact h1
      · exact h1
  | .ifStmt _ cond body, ta, h => by
      have h2 := inv_analyzeStmts body (analyzeExp cond ta) (inv_analyzeExp cond ta h)
      simp only [analyzeStmt]
      split
      · split
        · exact DiagFlagInv.report _ _ _
        · exact h2
      · exact h2
  | .ifElseStmt _ cond tBody fBody, ta, h => by
      have h2 := inv_analyzeStmts fBody _
        (inv_analyzeStmts tBody (analyzeExp cond ta) (inv_analyzeExp cond ta h))
      simp only [analyzeStmt]
      split
      · split
        · exact DiagFlagInv.report _ _ _
        · exact h2
      · exact h2
  | .whileStmt _ cond body, ta, h => by
      have h2 := inv_analyzeStmts body (analyzeExp cond ta) (inv_analyzeExp cond ta h)
      simp only [analyzeStmt]
      split
      · split
        · exact DiagFlagInv.report _ _ _
        · exact h2
      · exact h2
  | .returnExpStmt _ e, ta, h => by
      have h1 := inv_analyzeExp e ta h
      simp only [analyzeStmt]
      split
      · split
        · exact h1
        · exact h1
      · exact h1
      · exact h1
  | .returnVoidStmt _, ta, h => by
      simp only [analyzeStmt]
      split
      · split
        · exact h
        · exact h
      · exact h
  | .callStmt _ c, ta, h => inv_analyzeExp c ta h
  | .varDecl _, _, h => h
  | .fnDecl _ formals _ _ _ body, ta, h =>
      inv_analyzeStmts body _ (inv_analyzeFormals formals ta h)

/-- Statement-list analysis preserves the flag invariant. -/
theorem inv_analyzeStmts : ∀ (ss : List Stmt) (ta : TA),
    DiagFlagInv ta → DiagFlagInv (analyzeStmts ss ta)
  | [], _, h => h
  | s :: ss, ta, h => inv_analyzeStmts ss _ (inv_analyzeStmt s ta h)

end

/-- A whole run from the fresh context satisfies the flag invariant. -/
theorem inv_analyzeProgram (p : Program) : DiagFlagInv (analyzeProgram p initTA) :=
  inv_analyzeStmts p.globals initTA diagFlagInv_init

/-- C1: the claim says a call to a declared `void f()` with matching (zero)
arguments records the function's return type VOID for the call node, and that
count/positional argument mismatches are reported through the diagnostic
reporter.  Evaluating `CallExpNode::typeAnalysis` at such calls shows the
code instead: (a) records the poison `error` type for a perfectly matching
call and emits no diagnostic; (b) on an argument-count mismatch emits no
`ArgumentCountMismatch` diagnostic, only a `std::cout` message; (c) on a
positional type mismatch emits no `ArgumentTypeMismatch` diagnostic, only
`std::cout` messages — the success branch that would set the return type is
commented out in the source (lines 475-479) and line 486 unconditionally
records `Error`. -/
theorem callExp_records_error_and_reports_nothing :
    ((analyzeExp (Exp.call 2 20
        (Exp.ident 1 10 (DataType.fn 7 [] (DataType.basic .VOID))) []) initTA).typeOf 2
      = some DataType.error
    ∧ (analyzeExp (Exp.call 2 20
        (Exp.ident 1 10 (DataType.fn 7 [] (DataType.basic .VOID))) []) initTA).diags = [])
    ∧ ((analyzeExp (Exp.call 4 40
        (Exp.ident 3 30 (DataType.fn 7 [] (DataType.basic .VOID))) [Exp.intLit 5 50]) initTA).diags = []
    ∧ (analyzeExp (Exp.call 4 40
        (Exp.ident 3 30 (DataType.fn 7 [] (DataType.basic .VOID))) [Exp.intLit 5 50]) initTA).out
      = ["call does not have correct number of arguments\n"])
    ∧ ((analyzeExp (Exp.call 7 70
        (Exp.ident 6 60 (DataType.fn 8 [DataType.basic .INT] (DataType.basic .INT)))
        [Exp.trueLit 9 90]) initTA).diags = []
    ∧ (analyzeExp (Exp.call 7 70
        (Exp.ident 6 60 (DataType.fn 8 [DataType.basic .INT] (DataType.basic .INT)))
        [Exp.trueLit 9 90]) initTA).typeOf 7 = some DataType.error
    ∧ (analyzeExp (Exp.call 7 70
        (Exp.ident 6 60 (DataType.fn 8 [DataType.basic .INT] (DataType.basic .INT)))
        [Exp.trueLit 9 90]) initTA).out
      = ["0. ", "mismatched call argument types", "\n"]) :=
  ⟨⟨rfl, rfl⟩, ⟨rfl, rfl⟩, rfl, rfl, rfl⟩

/-- C2: the claim says an assignment whose two sides are Function-typed emits
`AssignmentMismatch` and records `Error`.  Evaluating
`AssignExpNode::typeAnalysis` at `f = f` (both sides the same declared
function symbol, hence the same interned `FnType` pointer) shows the code
accepts it: the pointer-equality test `tgtType == srcType` succeeds, no
diagnostic is emitted, and the function type itself is recorded — the
both-sides-function rejection described in the source's own comment
(lines 521-525) is not implemented. -/
theorem assign_same_function_accepted :
    (analyzeExp (Exp.assign 3 30
        (Exp.ident 1 10 (DataType.fn 7 [] (DataType.basic .VOID)))
        (Exp.ident 2 20 (DataType.fn 7 [] (DataType.basic .VOID)))) initTA).diags = []
    ∧ (analyzeExp (Exp.assign 3 30
        (Exp.ident 1 10 (DataType.fn 7 [] (DataType.basic .VOID)))
        (Exp.ident 2 20 (DataType.fn 7 [] (DataType.basic .VOID)))) initTA).typeOf 3
      = some (DataType.fn 7 [] (DataType.basic .VOID)) :=
  ⟨rfl, rfl⟩

/-- C3: the claim says a node with an `Error`-typed operand emits no further
diagnostic.  Evaluating `(1 + true) + 2` shows the inner plus records `Error`
and emits one `MathOperandMismatch`, and then the outer plus — whose left
operand carries `Error` — emits a second `MathOperandMismatch` (at position
40, the right operand of the outer plus): no suppression check exists in the
operator rules. -/
theorem plus_on_error_operand_emits_diagnostic :
    (analyzeExp (Exp.arith ArithOp.plus 5 50
        (Exp.arith ArithOp.plus 3 30 (Exp.intLit 1 10) (Exp.trueLit 2 20))
        (Exp.intLit 4 40)) initTA).typeOf 3 = some DataType.error
    ∧ (analyzeExp (Exp.arith ArithOp.plus 5 50
        (Exp.arith ArithOp.plus 3 30 (Exp.intLit 1 10) (Exp.trueLit 2 20))
        (Exp.intLit 4 40)) initTA).diags
      = [⟨20, ErrKind.MathOpd⟩, ⟨40, ErrKind.MathOpd⟩] :=
  ⟨rfl, rfl⟩

/-- C4: the claim says return statements report `ReturnTypeMismatch`,
`VoidReturnWithValue` and `MissingReturnValue` through the diagnostic
reporter.  Evaluating `ReturnStmtNode::typeAnalysis` inside declared
functions shows the code reports none of them: (a) in `int h()`, a
`return true;` emits no diagnostic at all and records the expression's type
BOOL for the statement (the expression's type is never compared with the
declared return type); (b) in `int h()`, a bare `return;` emits no
diagnostic, only the `std::cout` placeholder message; (c) in `void h()`, a
`return 3;` emits no diagnostic, only the `std::cout` placeholder message. -/
theorem returnStmt_reports_no_diagnostics :
    ((analyzeStmt (Stmt.fnDecl 100 [] (DataType.basic .INT) 7 101
        [Stmt.returnExpStmt 5 (Exp.trueLit 4 40)]) initTA).diags = []
    ∧ (analyzeStmt (Stmt.fnDecl 100 [] (DataType.basic .INT) 7 101
        [Stmt.returnExpStmt 5 (Exp.trueLit 4 40)]) initTA).typeOf 5
      = some (DataType.basic .BOOL))
    ∧ ((analyzeStmt (Stmt.fnDecl 110 [] (DataType.basic .INT) 8 111
        [Stmt.returnVoidStmt 6]) initTA).diags = []
    ∧ (analyzeStmt (Stmt.fnDecl 110 [] (DataType.basic .INT) 8 111
        [Stmt.returnVoidStmt 6]) initTA).out = ["throw a missing return value error\n"]
    ∧ (analyzeStmt (Stmt.fnDecl 110 [] (DataType.basic .INT) 8 111
        [Stmt.returnVoidStmt 6]) initTA).typeOf 6 = some DataType.error)
    ∧ ((analyzeStmt (Stmt.fnDecl 120 [] (DataType.basic .VOID) 9 121
        [Stmt.returnExpStmt 12 (Exp.intLit 11 55)]) initTA).diags = []
    ∧ (analyzeStmt (Stmt.fnDecl 120 [] (DataType.basic .VOID) 9 121
        [Stmt.returnExpStmt 12 (Exp.intLit 11 55)]) initTA).out
      = ["void returning value\n"]) :=
  ⟨⟨rfl, rfl⟩, ⟨rfl, rfl, rfl⟩, rfl, rfl⟩

/-- C5 counterexample: the claim says a failing run still exposes the
populated annotation store alongside the diagnostics.  On a program whose
analysis produces a diagnostic (`x = true` with `x : int` inside `void f()`),
`TypeAnalysis::build` returns null instead of the populated context. -/
theorem build_failure_returns_none_concrete :
    (analyzeProgram (Program.mk 200 [Stmt.fnDecl 100 [] (DataType.basic .VOID) 7 101
        [Stmt.assignStmt 6 (Exp.assign 5 50
          (Exp.ident 3 30 (DataType.basic .INT)) (Exp.trueLit 4 40))]]) initTA).diags
      = [⟨50, ErrKind.AssignOpr⟩]
    ∧ build (Program.mk 200 [Stmt.fnDecl 100 [] (DataType.basic .VOID) 7 101
        [Stmt.assignStmt 6 (Exp.assign 5 50
          (Exp.ident 3 30 (DataType.basic .INT)) (Exp.trueLit 4 40))]]) = none :=
  ⟨rfl, rfl⟩

/-- C5 as amended: when (and only when) the pass finishes with a nonempty
diagnostic list, `TypeAnalysis::build` returns null — the populated
annotation store is discarded on failure and exposed to the caller only on
success. -/
theorem build_none_iff_diags_nonempty (p : Program) :
    build p = none ↔ (analyzeProgram p initTA).diags ≠ [] := by
  have h := inv_analyzeProgram p
  simp only [build]
  by_cases hb : (analyzeProgram p initTA).hasError = true
  · simp [hb, h.mp hb]
  · have hd : (analyzeProgram p initTA).diags = [] := by
      by_contra hc
      exact hb (h.mpr hc)
    simp [hb, hd]

/-- C6: the claim says a node gets at most one binding and control statements
are never recorded.  Evaluating `IfStmtNode::typeAnalysis` at `if (true) { }`
shows the if node (identity 2) is recorded twice — VOID by the success
branch (line 113) and then, unconditionally, `Error` (line 115) — so control
statements do end up in the store, with two recording events. -/
theorem ifStmt_recorded_twice :
    (analyzeStmt (Stmt.ifStmt 2 (Exp.trueLit 1 10) []) initTA).store
      = [(2, DataType.error), (2, DataType.basic .VOID), (1, DataType.basic .BOOL)] :=
  rfl

/-- C7: the claim says unary negation reports `MathOperandMismatch` on a
non-INT operand and records INT on success, and logical not likewise with
BOOL.  Evaluating `NegNode::typeAnalysis` and `NotNode::typeAnalysis` shows
both bodies only recurse into the operand: `-true` emits no diagnostic and
records no type for the neg node, `-1` records no type either (so a parent
reading it would hit the fatal unbound-read), and `!1` emits no diagnostic
and records no type. -/
theorem negNot_no_check_no_record :
    ((analyzeExp (Exp.neg 2 20 (Exp.trueLit 1 10)) initTA).diags = []
    ∧ (analyzeExp (Exp.neg 2 20 (Exp.trueLit 1 10)) initTA).typeOf 2 = none)
    ∧ ((analyzeExp (Exp.neg 4 40 (Exp.intLit 3 30)) initTA).typeOf 4 = none)
    ∧ ((analyzeExp (Exp.notExp 6 60 (Exp.intLit 5 50)) initTA).diags = []
    ∧ (analyzeExp (Exp.notExp 6 60 (Exp.intLit 5 50)) initTA).typeOf 6 = none) :=
  ⟨⟨rfl, rfl⟩, rfl, rfl, rfl⟩

/-- C8: for every write statement whose source's recorded type is a Function
type, `WriteOfVoid` is emitted at the source's position when the declared
return type is VOID and `WriteOfFunction` when it is not; a source of
non-function recorded type leaves the context untouched (no diagnostic). -/
theorem writeStmt_matches_claim (n : Nat) (src : Exp) (ta : TA) (t : DataType)
    (h : (analyzeExp src ta).typeOf src.nid = some t) :
    (∀ a fs r, t = DataType.fn a fs r → r.isVoid = true →
        (analyzeStmt (.writeStmt n src) ta).diags
          = (analyzeExp src ta).diags ++ [⟨src.pos, ErrKind.WriteVoid⟩])
    ∧ (∀ a fs r, t = DataType.fn a fs r → r.isVoid = false →
        (analyzeStmt (.writeStmt n src) ta).diags
          = (analyzeExp src ta).diags ++ [⟨src.pos, ErrKind.WriteFn⟩])
    ∧ (t.isFn = false → analyzeStmt (.writeStmt n src) ta = analyzeExp src ta) := by
  have hunf : analyzeStmt (.writeStmt n src) ta
      = (if t.isFn then
          (if t.isVoid then (analyzeExp src ta).errWriteVoid src.pos
           else (analyzeExp src ta).errWriteFn src.pos)
         else analyzeExp src ta) := by
    simp only [analyzeStmt, h]
  refine ⟨?_, ?_, ?_⟩
  · rintro a fs r rfl hv
    rw [hunf]
    simp [DataType.isFn, DataType.isVoid, hv, TA.errWriteVoid, diags_report]
  · rintro a fs r rfl hv
    rw [hunf]
    simp [DataType.isFn, DataType.isVoid, hv, TA.errWriteFn, diags_report]
  · intro hnf
    rw [hunf]
    simp [hnf]

/-- C8 witness: writing a void-returning function emits exactly one
`WriteOfVoid` diagnostic at the source's position. -/
theorem writeStmt_matches_claim_witness :
    (analyzeStmt (Stmt.writeStmt 2
        (Exp.ident 1 10 (DataType.fn 7 [] (DataType.basic .VOID)))) initTA).diags
      = [⟨10, ErrKind.WriteVoid⟩] := by
  have h := (writeStmt_matches_claim 2
      (Exp.ident 1 10 (DataType.fn 7 [] (DataType.basic .VOID))) initTA
      (DataType.fn 7 [] (DataType.basic .VOID)) (by rfl)).1
      7 [] (DataType.basic .VOID) rfl (by rfl)
  simpa using h

/-- C9: for every arithmetic node (`+ - * /`), when the recorded operand
types are not structurally equal (in the spec's sense, which makes `Error`
unequal even to itself) or are not of kind INT, one `MathOperandMismatch`
diagnostic is emitted at the right operand's position and the node's
recorded type is `Error`; otherwise no diagnostic is emitted and the node's
recorded type is the operand type INT. -/
theorem arith_rule_matches_claim (op : ArithOp) (n p : Nat) (e1 e2 : Exp) (ta : TA)
    (t1 t2 : DataType)
    (h1 : (analyzeExp e2 (analyzeExp e1 ta)).typeOf e1.nid = some t1)
    (h2 : (analyzeExp e2 (analyzeExp e1 ta)).typeOf e2.nid = some t2) :
    (specStructEq t1 t2 = false ∨ t1.isInt = false →
        (analyzeExp (.arith op n p e1 e2) ta).diags
            = (analyzeExp e2 (analyzeExp e1 ta)).diags ++ [⟨e2.pos, ErrKind.MathOpd⟩]
          ∧ (analyzeExp (.arith op n p e1 e2) ta).typeOf n = some DataType.error)
    ∧ (specStructEq t1 t2 = true ∧ t1.isInt = true →
        (analyzeExp (.arith op n p e1 e2) ta).diags = (analyzeExp e2 (analyzeExp e1 ta)).diags
          ∧ (analyzeExp (.arith op n p e1 e2) ta).typeOf n
            = some (DataType.basic BasicKind.INT)) := by
  have hunf : analyzeExp (.arith op n p e1 e2) ta
      = (if t1 ≠ t2 ∨ t1.isInt = false then
          ((analyzeExp e2 (analyzeExp e1 ta)).errMathOpd e2.pos).record n .error
        else (analyzeExp e2 (analyzeExp e1 ta)).record n t1) := by
    simp only [analyzeExp, h1, h2]
  constructor
  · intro hcond
    have hc : t1 ≠ t2 ∨ t1.isInt = false := by
      by_contra hcon
      push_neg at hcon
      obtain ⟨he, hi⟩ := hcon
      have hk : specStructEq t1 t2 = true ∧ t1.isInt = true :=
        (specStructEq_isInt_iff t1 t2).mpr ⟨he, by simpa using hi⟩
      rcases hcond with hx | hx
      · rw [hk.1] at hx; simp at hx
      · rw [hk.2] at hx; simp at hx
    rw [hunf, if_pos hc]
    exact ⟨by simp [TA.errMathOpd, diags_record, diags_report], typeOf_record_self _ _ _⟩
  · intro hcond
    have he : t1 = t2 := ((specStructEq_isInt_iff t1 t2).mp hcond).1
    have hi : t1.isInt = true := hcond.2
    have hni : ¬ (t1 ≠ t2 ∨ t1.isInt = false) := by
      push_neg
      exact ⟨he, by simp [hi]⟩
    rw [hunf, if_neg hni]
    refine ⟨diags_record _ _ _, ?_⟩
    rw [isInt_eq_basic hi] at *
    exact typeOf_record_self _ _ _

/-- C9 witness: `1 + true` emits exactly one `MathOperandMismatch` at the
right operand's position and records `Error` for the plus node. -/
theorem arith_rule_matches_claim_witness :
    (analyzeExp (Exp.arith ArithOp.plus 3 12 (Exp.intLit 1 10) (Exp.trueLit 2 11)) initTA).diags
        = [⟨11, ErrKind.MathOpd⟩]
    ∧ (analyzeExp (Exp.arith ArithOp.plus 3 12 (Exp.intLit 1 10) (Exp.trueLit 2 11)) initTA).typeOf 3
        = some DataType.error := by
  have h := (arith_rule_matches_claim ArithOp.plus 3 12 (Exp.intLit 1 10) (Exp.trueLit 2 11)
      initTA (DataType.basic .INT) (DataType.basic .BOOL) (by rfl) (by rfl)).1
      (Or.inl (by rfl))
  simpa using h

/-- C10: the post-increment and post-decrement statement rules perform no
check at all: for every lvalue and every incoming context, analyzing the
statement is literally analyzing the lvalue subexpression — no diagnostic
beyond the lvalue's own, and no type recorded for the statement node. -/
theorem postIncDec_only_types_lvalue (n : Nat) (l : Exp) (ta : TA) :
    analyzeStmt (.postIncStmt n l) ta = analyzeExp l ta
    ∧ analyzeStmt (.postDecStmt n l) ta = analyzeExp l ta := by
  constructor <;> simp [analyzeStmt]

end CMM
